import Mathlib

/-!
Shallow embedding of the CRE Research Agent orchestration core
(query categorization, source adapters, session tracking, citation/synthesis
pipeline, news-feed scoring, economic-indicator trend labelling), translated
from the JavaScript sources under the backend of the repository, together
with theorems settling the specification's claims about it.

Modelling conventions:
* JavaScript strings are Lean `String`s; `String.prototype.includes` is the
  substring test `jsIncludes`; `toLowerCase` is `jsToLower`.
* Timestamps (`new Date()...`) are opaque: record dates are threaded through
  a `today : String` parameter and event timestamps are omitted (no claim
  inspects them).
* Fallible external calls (HTTP requests, XML parsing, the model-provider
  call) are parameters of type `Except String _` giving the outcome of the
  call; `try`/`catch` in the source becomes a `match` on that outcome.
* The process-wide session maps `global.researchStatus` /
  `global.researchComplete` are a `GlobalState` value threaded explicitly.
-/

/-- JavaScript `haystack.includes(needle)`: substring containment test,
implemented over the character lists of the two strings. -/
def jsIncludes (haystack needle : String) : Bool :=
  go needle.data haystack.data
where
  go (n : List Char) : List Char → Bool
    | [] => n.isEmpty
    | c :: rest => n.isPrefixOf (c :: rest) || go n rest

/-- JavaScript `s.toLowerCase()` (ASCII range, as used by the sources),
mapping `Char.toLower` over the character list. -/
def jsToLower (s : String) : String :=
  String.mk (s.data.map Char.toLower)

/-- JavaScript `s.split(' ')`: split on every single space character,
keeping empty fragments. -/
def jsSplitOnSpace (s : String) : List String :=
  go s.data []
where
  go : List Char → List Char → List String
    | [], acc => [String.mk acc.reverse]
    | c :: rest, acc =>
      if c = ' ' then String.mk acc.reverse :: go rest []
      else go rest (c :: acc)

/-! ## Data model -/

/-- A normalized unit of evidence (`ResearchRecord` in the spec); field
names follow the objects built by the adapter services. -/
structure ResearchRecord where
  title : String
  authors : String
  date : String
  source : String
  link : String
  summary : String
  type : String
deriving Repr, DecidableEq

/-- The shape produced by the document-analysis collaborator and consumed
by `AIService.prepareMessages` (`summary`, `topics`, `wordCount`). -/
structure DocumentContext where
  summary : String
  topics : Option (List String)
  wordCount : Option Nat
deriving Repr, DecidableEq

/-- One progress event pushed onto `global.researchStatus[sessionId]`
(the `timestamp` field of the source is omitted, see module docstring). -/
structure SessionEvent where
  step : String
  source : Option String
deriving Repr, DecidableEq

/-- The process-wide session maps `global.researchStatus` and
`global.researchComplete`, keyed by session id. -/
structure GlobalState where
  researchStatus : String → Option (List SessionEvent)
  researchComplete : String → Option Bool

/-- `global.researchStatus[sessionId] = evs`. -/
def GlobalState.setStatus (st : GlobalState) (sid : String) (evs : List SessionEvent) :
    GlobalState :=
  { st with researchStatus := fun k => if k = sid then some evs else st.researchStatus k }

/-- `global.researchComplete[sessionId] = b`. -/
def GlobalState.setComplete (st : GlobalState) (sid : String) (b : Bool) : GlobalState :=
  { st with researchComplete := fun k => if k = sid then some b else st.researchComplete k }

/-- The guarded push `if (sessionId && global.researchStatus[sessionId])
global.researchStatus[sessionId].push(ev)` used throughout the services
(a non-empty `sid` models a truthy session id). -/
def GlobalState.pushEvent (st : GlobalState) (sid : String) (ev : SessionEvent) :
    GlobalState :=
  if sid ≠ "" then
    match st.researchStatus sid with
    | some evs => st.setStatus sid (evs ++ [ev])
    | none => st
  else st

/-! ## Query categorization

Two categorizers exist in the repository.  The research pipeline
(`QueryController.handleResearchQuery`) calls the controller's own
`categorizeQuery`; the standalone `QueryCategorizer.categorize` service is
not imported by the controller. Both are embedded. -/

namespace QueryController

/-- Keyword list from `queryController.js` lines 139-142. -/
def sustainabilityKeywords : List String :=
  ["sustainability", "sustainable", "green", "energy efficiency",
   "renewable", "leed", "carbon", "net zero", "esg", "environmental"]

/-- Keyword list from `queryController.js` lines 145-148. -/
def leasingKeywords : List String :=
  ["lease", "leasing", "tenant", "landlord", "rent", "rental",
   "occupancy", "vacancy", "square footage", "office space"]

/-- Keyword list from `queryController.js` lines 151-154. -/
def marketKeywords : List String :=
  ["market", "trend", "forecast", "growth", "investment", "cap rate",
   "yield", "return", "appreciation", "property value", "price"]

/-- Number of keywords of `keywords` occurring as substrings of
`queryLower` (the `forEach`/`includes` counting loops of the source). -/
def countMatches (queryLower : String) (keywords : List String) : Nat :=
  keywords.countP (fun k => jsIncludes queryLower k)

/-- The selection block at `queryController.js` lines 175-183:
`sustainability` or `leasing` on a strict double win, otherwise `market`
whenever the market count is positive, otherwise `general`. -/
def pickCategory (sustainabilityMatches leasingMatches marketMatches : Nat) : String :=
  if sustainabilityMatches > leasingMatches ∧ sustainabilityMatches > marketMatches then
    "sustainability"
  else if leasingMatches > sustainabilityMatches ∧ leasingMatches > marketMatches then
    "leasing"
  else if marketMatches > 0 then
    "market"
  else
    "general"

/-- `QueryController.categorizeQuery` (`queryController.js` lines 135-184):
lower-case the query, count keyword matches per category, then select via
`pickCategory`. -/
def categorizeQuery (query : String) : String :=
  let queryLower := jsToLower query
  pickCategory
    (countMatches queryLower sustainabilityKeywords)
    (countMatches queryLower leasingKeywords)
    (countMatches queryLower marketKeywords)

end QueryController

namespace QueryCategorizer

/-- Keyword list from `QueryCategorizer.js` lines 3-7. -/
def sustainabilityKeywords : List String :=
  ["sustainability", "sustainable", "green", "eco", "environmental", "energy",
   "efficiency", "leed", "certification", "carbon", "footprint", "renewable",
   "solar", "climate", "emissions", "energy star"]

/-- Keyword list from `QueryCategorizer.js` lines 9-13. -/
def leasingKeywords : List String :=
  ["lease", "leasing", "rent", "rental", "tenant", "landlord", "occupancy",
   "vacancy", "square foot", "sq ft", "commercial space", "office space",
   "retail space", "industrial space", "warehouse", "contract", "agreement"]

/-- Keyword list from `QueryCategorizer.js` lines 15-19. -/
def marketTrendsKeywords : List String :=
  ["market", "trend", "analysis", "forecast", "outlook", "prediction",
   "projection", "growth", "decline", "demand", "supply", "investment",
   "cap rate", "yield", "return", "value", "price", "pricing", "economic"]

/-- `QueryCategorizer.countKeywordMatches` (`QueryCategorizer.js`
lines 68-72). -/
def countKeywordMatches (query : String) (keywords : List String) : Nat :=
  keywords.foldl (fun count keyword => count + (if jsIncludes query keyword then 1 else 0)) 0

/-- The selection block at `QueryCategorizer.js` lines 50-59: symmetric
strict-winner selection; any tie (including all-zero) falls through to
`general`. -/
def pickScoredCategory (sustainabilityScore leasingScore marketScore : Nat) : String :=
  if sustainabilityScore > leasingScore ∧ sustainabilityScore > marketScore then
    "sustainability"
  else if leasingScore > sustainabilityScore ∧ leasingScore > marketScore then
    "leasing"
  else if marketScore > sustainabilityScore ∧ marketScore > leasingScore then
    "market_trends"
  else
    "general"

/-- `QueryCategorizer.categorize` (`QueryCategorizer.js` lines 26-60); the
unused boolean `has...Terms` bindings of lines 30-42 are dead code and
omitted. -/
def categorize (query : String) : String :=
  let queryLower := jsToLower query
  pickScoredCategory
    (countKeywordMatches queryLower sustainabilityKeywords)
    (countKeywordMatches queryLower leasingKeywords)
    (countKeywordMatches queryLower marketTrendsKeywords)

end QueryCategorizer

/-! ## Source adapters

Each adapter's `getResearch(query, sessionId)` is embedded with the
outcomes of its fallible external calls as `Except` parameters.  The
return type `Except String (List ResearchRecord)` of the sustainability
adapter records whether an exception escapes its boundary (`.error`);
the three canned adapters have no fallible call left in their bodies
(their `try`/`catch` blocks guard a literal `return`), so they are total. -/

namespace SustainabilityService

/-- `SustainabilityService.searchArXiv` (lines 100-158): the axios call,
XML parsing and entry mapping are abstracted into the outcome `arxivCall`
of the whole fetch-and-parse step; the function's own `try`/`catch`
returns an empty array on any failure. -/
def searchArXiv (arxivCall : Except String (List ResearchRecord)) : List ResearchRecord :=
  match arxivCall with
  | .ok rs => rs
  | .error _ => []

/-- The canned record returned by the `searchLEED` placeholder
(lines 165-177). -/
def leedRecord (today : String) : ResearchRecord :=
  { title := "LEED Certification Data (Placeholder)"
    authors := "U.S. Green Building Council"
    date := today
    source := "LEED Database"
    link := "https://www.usgbc.org/projects"
    summary := "This is a placeholder for LEED certification data. In a production implementation, this would contain actual data from the LEED API."
    type := "certification_data" }

/-- `SustainabilityService.getResearch` (lines 11-93): arXiv first, then the
LEED source when fewer than 3 results; the inner `try`/`catch` around the
LEED call (lines 41-75) swallows its failure (`leedCall = .error`), and the
outer `try`/`catch` (lines 79-92) would map any escaped exception to an
empty array — every branch of the body below already returns `.ok`, so the
outer handler is unreachable and not separately modelled.  As written in
the source, `searchLEED` always succeeds with `[leedRecord today]`; the
`leedCall` parameter is the outcome of that call. -/
def getResearch (arxivCall leedCall : Except String (List ResearchRecord))
    (sessionId : String) (st : GlobalState) :
    Except String (List ResearchRecord) × GlobalState :=
  let st := st.pushEvent sessionId ⟨"Searching academic papers on sustainability", some "arXiv"⟩
  let arXivResults := searchArXiv arxivCall
  let results := arXivResults
  let st := if arXivResults.length > 0 then
      st.pushEvent sessionId
        ⟨"Found " ++ toString arXivResults.length ++ " relevant academic papers on sustainability",
         some "arXiv"⟩
    else st
  if results.length < 3 then
    let st := st.pushEvent sessionId ⟨"Searching LEED certification databases", some "USGBC LEED Database"⟩
    match leedCall with
    | .ok leedResults =>
      if leedResults.length > 0 then
        let st := st.pushEvent sessionId ⟨"Retrieved LEED certification data", some "USGBC LEED Database"⟩
        (.ok (results ++ leedResults), st)
      else
        (.ok results, st)
    | .error msg =>
      let st := st.pushEvent sessionId ⟨"LEED data search failed: " ++ msg, some "USGBC LEED Database"⟩
      (.ok results, st)
  else
    (.ok results, st)

end SustainabilityService

namespace LeasingService

/-- The canned record built by `LeasingService.getResearch`
(`LeasingService.js` lines 147-155). -/
def cannedRecord (query today : String) : ResearchRecord :=
  { title := "Commercial Lease Rate Data"
    authors := "Leasing Research Team"
    date := today
    source := "Leasing Database"
    link := "https://example.com/leasing"
    summary := "Sample leasing data for the query: " ++ query
    type := "market_report" }

/-- `LeasingService.getResearch` (lines 135-170): log an event, then return
one canned record; the surrounding `try`/`catch` guards a literal `return`
and cannot fire. -/
def getResearch (query sessionId today : String) (st : GlobalState) :
    List ResearchRecord × GlobalState :=
  let st := st.pushEvent sessionId ⟨"Searching for leasing market information", some "Leasing Service"⟩
  ([cannedRecord query today], st)

end LeasingService

namespace MarketService

/-- The canned record built by `MarketService.getResearch`
(part_003 lines 187-195). -/
def cannedRecord (query today : String) : ResearchRecord :=
  { title := "Market Trends Analysis"
    authors := "Market Research Team"
    date := today
    source := "Market Database"
    link := "https://example.com/market"
    summary := "Sample market data for the query: " ++ query
    type := "market_report" }

/-- `MarketService.getResearch` (part_003 lines 175-210): log an event, then
return one canned record; the surrounding `try`/`catch` guards a literal
`return` and cannot fire. -/
def getResearch (query sessionId today : String) (st : GlobalState) :
    List ResearchRecord × GlobalState :=
  let st := st.pushEvent sessionId ⟨"Analyzing market trend information", some "Market Service"⟩
  ([cannedRecord query today], st)

end MarketService

namespace FallbackService

/-- The canned record built by `FallbackService.getResearch`
(part_002 lines 167-175). -/
def cannedRecord (query today : String) : ResearchRecord :=
  { title := "General Information"
    authors := "Research Team"
    date := today
    source := "General Database"
    link := "https://example.com/general"
    summary := "Sample fallback data for the query: " ++ query
    type := "web_content" }

/-- `FallbackService.getResearch` (part_002 lines 155-190): log an event,
then return one canned record; the surrounding `try`/`catch` guards a
literal `return` and cannot fire. -/
def getResearch (query sessionId today : String) (st : GlobalState) :
    List ResearchRecord × GlobalState :=
  let st := st.pushEvent sessionId ⟨"Searching general knowledge sources", some "Fallback Service"⟩
  ([cannedRecord query today], st)

end FallbackService

/-! ## Citation / synthesis pipeline -/

/-- One element of the `researchResults` array the controller hands to
`AIService.processResearch`: either an adapter's result array or the plain
document-analysis object `{source: 'Document Analysis', data: ...}`
pushed at `queryController.js` lines 104-107. -/
inductive ResultsEntry where
  | arr (rs : List ResearchRecord)
  | doc (d : DocumentContext)
deriving Repr, DecidableEq

/-- One element of the flattened result sequence embedded in the prompt
and projected into the citation list. -/
inductive ResultItem where
  | record (r : ResearchRecord)
  | docEntry (d : DocumentContext)
deriving Repr, DecidableEq

/-- `researchResults.flat().filter(Boolean)` (part_001 line 29): `.flat()`
splices one level of nested arrays and keeps plain objects; every element
is a truthy object, so `.filter(Boolean)` is the identity and is not
modelled separately. -/
def flattenResults : List ResultsEntry → List ResultItem
  | [] => []
  | .arr rs :: t => rs.map ResultItem.record ++ flattenResults t
  | .doc d :: t => ResultItem.docEntry d :: flattenResults t

/-- One entry of `SynthesizedResponse.citations`; fields are `Option`s
because projecting the document-analysis object yields `undefined`
(`none`) for every field it lacks. -/
structure Citation where
  title : Option String
  authors : Option String
  source : Option String
  link : Option String
  date : Option String
deriving Repr, DecidableEq

/-- The projection `{title, authors, source, link, date}` applied to each
flattened result (part_001 lines 90-96). -/
def citeOf : ResultItem → Citation
  | .record r =>
    { title := some r.title, authors := some r.authors, source := some r.source,
      link := some r.link, date := some r.date }
  | .docEntry _ =>
    { title := none, authors := none, source := some "Document Analysis",
      link := none, date := none }

/-- The value returned by `AIService.processResearch`. -/
structure AIResponse where
  response : String
  citations : List Citation
deriving Repr, DecidableEq

namespace AIService

/-- `AIService.processResearch` (part_001 lines 16-111).  The provider
selection, API-key lookup and provider HTTP call (lines 44-74) are
abstracted into `aiCall`: `.error` covers a missing key, an unsupported
provider and a failed provider call, all of which the source's `catch`
rethrows as `Failed to process research with AI: ...`; the intermediate
"Querying AI model" event is folded into that abstraction.  On success the
citations are the positional projection of the flattened results. -/
def processResearch (query : String) (researchResults : List ResultsEntry)
    (documentAnalysis : Option DocumentContext) (sessionId : String)
    (aiCall : Except String String) (st : GlobalState) :
    Except String AIResponse × GlobalState :=
  let st := st.pushEvent sessionId ⟨"Summarizing research findings", some "AI Service"⟩
  let flattenedResults := flattenResults researchResults
  let st := st.pushEvent sessionId
    ⟨"Found " ++ toString flattenedResults.length ++ " relevant sources for research",
     some "Research Aggregator"⟩
  match aiCall with
  | .ok response =>
    let st := st.pushEvent sessionId ⟨"AI analysis complete, generating final response", some "OpenAI"⟩
    (.ok { response := response, citations := flattenedResults.map citeOf }, st)
  | .error msg =>
    let st := st.pushEvent sessionId ⟨"Error in AI processing: " ++ msg, some "AI Service"⟩
    (.error ("Failed to process research with AI: " ++ msg), st)

end AIService

/-! ## Research orchestrator (`QueryController.handleResearchQuery`) -/

/-- The request body `{query, sessionId, documentContext}`; absent fields
are `none`. -/
structure ResearchRequest where
  query : Option String
  sessionId : Option String
  documentContext : Option DocumentContext

/-- JavaScript falsiness of an optional string field: absent (`undefined`)
or the empty string. -/
def jsFalsy : Option String → Bool
  | none => true
  | some s => s.isEmpty

/-- The HTTP-level outcome of the handler: 400 (validation), 500 (the
outer `catch`), or 200 with the synthesized response. -/
inductive HttpResponse where
  | badRequest (body : String)
  | serverError (body : String)
  | ok (body : AIResponse)
deriving Repr, DecidableEq

/-- Result of one `handleResearchQuery` call: the response, the final
session maps, and two instrumentation projections of the execution —
the adapters invoked (in call order) and the `researchResults` array
passed to `AIService.processResearch` (empty if synthesis was never
reached). -/
structure HandlerResult where
  response : HttpResponse
  state : GlobalState
  invoked : List String
  synthInput : List ResultsEntry

namespace QueryController

/-- Outcomes of the external calls a single request can make, plus the
display-formatted current date used in canned records. -/
structure ProviderEnv where
  arxivCall : Except String (List ResearchRecord)
  leedCall : Except String (List ResearchRecord)
  aiCall : Except String String
  today : String

/-- `QueryController.handleResearchQuery` (`queryController.js`
lines 16-128): validate, reset the session maps, categorize, fan out to
the topical adapters (a topical adapter runs when the category equals its
topic or is `general`), always run the fallback adapter, append the
document-context entry if supplied, synthesize, mark complete.  A rejected
`await` (sustainability adapter or AI service) falls into the outer
`catch` (lines 124-127), which responds 500 with the session maps as
mutated so far and without marking the session complete. -/
def handleResearchQuery (req : ResearchRequest) (env : ProviderEnv) (st : GlobalState) :
    HandlerResult :=
  if jsFalsy req.query then
    { response := .badRequest "Query is required", state := st, invoked := [], synthInput := [] }
  else if jsFalsy req.sessionId then
    { response := .badRequest "Session ID is required", state := st, invoked := [], synthInput := [] }
  else
    let query := req.query.getD ""
    let sessionId := req.sessionId.getD ""
    let st := st.setStatus sessionId []
    let st := st.setComplete sessionId false
    let st := st.pushEvent sessionId ⟨"Starting research query categorization", none⟩
    let category := categorizeQuery query
    let st := st.pushEvent sessionId ⟨"Query categorized as: " ++ category, none⟩
    let sustStep : Except (String × GlobalState) (List ResultsEntry × GlobalState × List String) :=
      if category = "sustainability" ∨ category = "general" then
        let st := st.pushEvent sessionId ⟨"Gathering sustainability research data", some "Sustainability databases"⟩
        match SustainabilityService.getResearch env.arxivCall env.leedCall sessionId st with
        | (.ok sustainabilityData, st) => .ok ([ResultsEntry.arr sustainabilityData], st, ["sustainability"])
        | (.error msg, st) => .error (msg, st)
      else
        .ok ([], st, [])
    match sustStep with
    | .error (msg, st) =>
      { response := .serverError ("Error processing query: " ++ msg), state := st,
        invoked := ["sustainability"], synthInput := [] }
    | .ok (researchResults, st, invoked) =>
      let (researchResults, st, invoked) :=
        if category = "leasing" ∨ category = "general" then
          let st := st.pushEvent sessionId ⟨"Analyzing leasing market information", some "Leasing databases"⟩
          let (leasingData, st) := LeasingService.getResearch query sessionId env.today st
          (researchResults ++ [ResultsEntry.arr leasingData], st, invoked ++ ["leasing"])
        else (researchResults, st, invoked)
      let (researchResults, st, invoked) :=
        if category = "market" ∨ category = "general" then
          let st := st.pushEvent sessionId ⟨"Retrieving market trend data", some "Market analytics providers"⟩
          let (marketData, st) := MarketService.getResearch query sessionId env.today st
          (researchResults ++ [ResultsEntry.arr marketData], st, invoked ++ ["market"])
        else (researchResults, st, invoked)
      let st := st.pushEvent sessionId ⟨"Searching general knowledge sources", some "Wikipedia and general databases"⟩
      let (fallbackData, st) := FallbackService.getResearch query sessionId env.today st
      let researchResults := researchResults ++ [ResultsEntry.arr fallbackData]
      let invoked := invoked ++ ["fallback"]
      let (researchResults, st) :=
        match req.documentContext with
        | some d =>
          let st := st.pushEvent sessionId ⟨"Analyzing uploaded document context", none⟩
          (researchResults ++ [ResultsEntry.doc d], st)
        | none => (researchResults, st)
      let st := st.pushEvent sessionId ⟨"Processing research with AI analysis", some "OpenAI"⟩
      match AIService.processResearch query researchResults req.documentContext sessionId env.aiCall st with
      | (.ok aiResponse, st) =>
        let st := st.setComplete sessionId true
        { response := .ok aiResponse, state := st, invoked := invoked, synthInput := researchResults }
      | (.error msg, st) =>
        { response := .serverError ("Error processing query: " ++ msg), state := st,
          invoked := invoked, synthInput := researchResults }

end QueryController

/-! ## News-feed aggregator (`RSSFeedService`) -/

namespace RSSFeedService

/-- A syndicated feed item, reduced to the two text fields the relevance
scorer reads (`item.title`, `item.description || item.summary`). -/
structure FeedItem where
  title : String
  description : String
deriving Repr, DecidableEq

/-- `scoreRelevance` (part_004 lines 37-54): one point per query term
occurring in the lower-cased `title + ' ' + description`, plus a bonus of
2 when the text mentions `commercial real estate` or `cre`. -/
def scoreRelevance (queryTerms : List String) (title description : String) : Nat :=
  let text := jsToLower (title ++ " " ++ description)
  let score := queryTerms.foldl
    (fun score term => if jsIncludes text term then score + 1 else score) 0
  if jsIncludes text "commercial real estate" || jsIncludes text "cre" then score + 2
  else score

/-- The per-feed selection of `searchNews` (part_004 lines 85-97): score
every item, keep the positively scored ones, sort descending by score
(`sort((a, b) => b.score - a.score)`, a stable sort, embedded as a stable
insertion sort on the same descending key), and take the top 2. -/
def topScoredItems (queryTerms : List String) (items : List FeedItem) :
    List (FeedItem × Nat) :=
  let scoredItems := items.map
    (fun item => (item, scoreRelevance queryTerms item.title item.description))
  let scoredItems := scoredItems.filter (fun p => decide (p.2 > 0))
  let sorted := scoredItems.insertionSort (fun a b => b.2 ≤ a.2)
  sorted.take 2

/-- `RSSFeedService.searchNews` (part_004 lines 32-125), up to the final
per-item record formatting (lines 100-113, citation plumbing unread by any
claim): each feed's fetch-and-parse outcome is a parameter; a failed fetch
contributes nothing (the per-feed `catch`, lines 115-117), a successful
one contributes its top-2 positively scored items. -/
def searchNews (query : String) (feeds : List (Except String (List FeedItem))) :
    List (FeedItem × Nat) :=
  let queryTerms := jsSplitOnSpace (jsToLower query)
  feeds.foldl
    (fun results feed =>
      match feed with
      | .ok items => results ++ topScoredItems queryTerms items
      | .error _ => results)
    []

end RSSFeedService

/-! ## Economic-indicator trend labelling (`FREDService`) -/

namespace FREDService

/-- One FRED observation: `value` is the result of `parseFloat` on the
payload string — `none` models a non-numeric string (`NaN`); JavaScript
numbers are modelled as rationals. -/
structure FredObs where
  date : String
  value : Option ℚ
deriving Repr, DecidableEq

/-- The five-way threshold classification of the percent change
(`FREDService.js` lines 106-117), starting from the default `stable`. -/
def trendLabel (percentChange : ℚ) : String :=
  if percentChange > 10 then "significantly increased"
  else if percentChange > 2 then "increased"
  else if percentChange < -10 then "significantly decreased"
  else if percentChange < -2 then "decreased"
  else "stable"

/-- The trend computation of `searchEconomicData` (`FREDService.js`
lines 100-118): `observations` is the series payload fetched with
`sort_order: 'desc', limit: 12` (most recent first, at most 12 entries);
`latest` is `observations[0]`, `previous` is the last — i.e. oldest —
entry; the label stays `stable` with fewer than two observations, a
non-numeric endpoint, or a zero oldest value. -/
def calculateTrend (observations : List FredObs) : String :=
  if observations.length > 1 then
    match observations.head?, observations.getLast? with
    | some latestObs, some previousObs =>
      match latestObs.value, previousObs.value with
      | some latest, some previous =>
        if previous ≠ 0 then trendLabel ((latest - previous) / previous * 100)
        else "stable"
      | _, _ => "stable"
    | _, _ => "stable"
  else "stable"

/-- Position of each trend label along the decrease-to-increase axis,
used to state that the labelling is monotone in the percent change. -/
def labelRank : String → Nat
  | "significantly decreased" => 0
  | "decreased" => 1
  | "stable" => 2
  | "increased" => 3
  | _ => 4

end FREDService

/-! ## Statement helpers and concrete instances -/

/-- The record payload of the sustainability adapter, as a function of the
two provider outcomes alone (the session state only influences the logged
events, not the records): arXiv results, extended by the LEED results when
fewer than 3 and the LEED call succeeded. -/
def SustainabilityService.records
    (arxivCall leedCall : Except String (List ResearchRecord)) : List ResearchRecord :=
  let arXivResults := SustainabilityService.searchArXiv arxivCall
  if arXivResults.length < 3 then
    match leedCall with
    | .ok leedResults => arXivResults ++ leedResults
    | .error _ => arXivResults
  else
    arXivResults

/-- The citation list of a handler response (empty for the two error
responses, which carry none). -/
def HttpResponse.citationsOf : HttpResponse → List Citation
  | .ok r => r.citations
  | _ => []

/-- Fresh process state: both session maps empty. -/
def emptyState : GlobalState := ⟨fun _ => none, fun _ => none⟩

/-- A state in which session `s1` has already completed a previous
request. -/
def preCompletedState : GlobalState :=
  ⟨fun _ => none, fun k => if k = "s1" then some true else none⟩

/-- A sample document-analysis value. -/
def sampleDoc : DocumentContext :=
  { summary := "A lease abstract.", topics := some ["Leasing"], wordCount := some 120 }

/-- Provider outcomes of the repository run offline with a configured
model provider: the arXiv fetch fails, the LEED placeholder returns its
canned record (as the source always does), and the model call succeeds. -/
def okEnv : QueryController.ProviderEnv :=
  { arxivCall := Except.error "offline"
    leedCall := Except.ok [SustainabilityService.leedRecord "1/1/2024"]
    aiCall := Except.ok "answer"
    today := "1/1/2024" }

/-- Provider outcomes with both sustainability provider calls failing. -/
def failEnv : QueryController.ProviderEnv :=
  { arxivCall := Except.error "offline"
    leedCall := Except.error "leed down"
    aiCall := Except.ok "answer"
    today := "1/1/2024" }

/-- The adapter-derived records a valid request contributes to synthesis:
the payloads of the category-selected topical adapters followed by the
fallback adapter's record. -/
def selectedRecords (query : String) (env : QueryController.ProviderEnv) :
    List ResearchRecord :=
  (if QueryController.categorizeQuery query = "sustainability" ∨
      QueryController.categorizeQuery query = "general" then
    SustainabilityService.records env.arxivCall env.leedCall else []) ++
  (if QueryController.categorizeQuery query = "leasing" ∨
      QueryController.categorizeQuery query = "general" then
    [LeasingService.cannedRecord query env.today] else []) ++
  (if QueryController.categorizeQuery query = "market" ∨
      QueryController.categorizeQuery query = "general" then
    [MarketService.cannedRecord query env.today] else []) ++
  [FallbackService.cannedRecord query env.today]

/-! ## Shared lemmas about the embedded pipeline -/

/-- `flattenResults` distributes over append. -/
lemma flattenResults_append (xs ys : List ResultsEntry) :
    flattenResults (xs ++ ys) = flattenResults xs ++ flattenResults ys := by
  induction xs with
  | nil => rfl
  | cons x t ih => cases x <;> simp [flattenResults, ih]

/-- Every control path of the sustainability adapter resolves (no branch
rethrows past the boundary). -/
lemma SustainabilityService.getResearch_ok
    (arxivCall leedCall : Except String (List ResearchRecord))
    (sessionId : String) (st : GlobalState) :
    ∃ rs st', SustainabilityService.getResearch arxivCall leedCall sessionId st =
      (Except.ok rs, st') := by
  unfold SustainabilityService.getResearch
  dsimp only
  split
  · split
    · split
      · exact ⟨_, _, rfl⟩
      · exact ⟨_, _, rfl⟩
    · exact ⟨_, _, rfl⟩
  · exact ⟨_, _, rfl⟩

/-- `getResearch` always resolves with the payload `records`, whatever the
session state. -/
lemma SustainabilityService.getResearch_eq
    (arxivCall leedCall : Except String (List ResearchRecord))
    (sessionId : String) (st : GlobalState) :
    SustainabilityService.getResearch arxivCall leedCall sessionId st =
      (Except.ok (SustainabilityService.records arxivCall leedCall),
       (SustainabilityService.getResearch arxivCall leedCall sessionId st).2) := by
  unfold SustainabilityService.getResearch SustainabilityService.records
  dsimp only
  split
  · split
    · split
      · rfl
      · rename_i hlen
        simp at hlen
        simp [hlen]
    · rfl
  · rfl

/-- The validation path: a falsy `query` or `sessionId` short-circuits to
a 400 response before any session-map write or adapter call. -/
lemma handleResearchQuery_validation (req : ResearchRequest)
    (env : QueryController.ProviderEnv) (st : GlobalState)
    (h : jsFalsy req.query = true ∨ jsFalsy req.sessionId = true) :
    (∃ msg, (QueryController.handleResearchQuery req env st).response =
      HttpResponse.badRequest msg) ∧
    (QueryController.handleResearchQuery req env st).state = st ∧
    (QueryController.handleResearchQuery req env st).invoked = [] ∧
    (QueryController.handleResearchQuery req env st).synthInput = [] := by
  unfold QueryController.handleResearchQuery
  by_cases hq : jsFalsy req.query = true
  · rw [if_pos hq]
    exact ⟨⟨_, rfl⟩, rfl, rfl, rfl⟩
  · have hs : jsFalsy req.sessionId = true := by
      rcases h with h | h
      · exact absurd h hq
      · exact h
    rw [if_neg hq, if_pos hs]
    exact ⟨⟨_, rfl⟩, rfl, rfl, rfl⟩

/-- Closed form of a successfully synthesized request: for a valid request
whose model-provider call succeeds, the `researchResults` sequence handed
to synthesis is the category-selected adapter arrays, then the fallback
array, then (if supplied) the document entry; the response carries the
positional citation projection of its flattening; and the session is
marked complete. -/
lemma handleResearchQuery_success (query sid : String) (dc : Option DocumentContext)
    (env : QueryController.ProviderEnv) (st : GlobalState) (resp : String)
    (hq : jsFalsy (some query) = false) (hs : jsFalsy (some sid) = false)
    (hai : env.aiCall = Except.ok resp) :
    (QueryController.handleResearchQuery ⟨some query, some sid, dc⟩ env st).synthInput =
      (if QueryController.categorizeQuery query = "sustainability" ∨
          QueryController.categorizeQuery query = "general" then
        [ResultsEntry.arr (SustainabilityService.records env.arxivCall env.leedCall)] else []) ++
      (if QueryController.categorizeQuery query = "leasing" ∨
          QueryController.categorizeQuery query = "general" then
        [ResultsEntry.arr [LeasingService.cannedRecord query env.today]] else []) ++
      (if QueryController.categorizeQuery query = "market" ∨
          QueryController.categorizeQuery query = "general" then
        [ResultsEntry.arr [MarketService.cannedRecord query env.today]] else []) ++
      [ResultsEntry.arr [FallbackService.cannedRecord query env.today]] ++
      (match dc with | some d => [ResultsEntry.doc d] | none => []) ∧
    (QueryController.handleResearchQuery ⟨some query, some sid, dc⟩ env st).response =
      HttpResponse.ok
        { response := resp,
          citations := (flattenResults
            (QueryController.handleResearchQuery ⟨some query, some sid, dc⟩ env st).synthInput).map
            citeOf } ∧
    (QueryController.handleResearchQuery ⟨some query, some sid, dc⟩ env st).state.researchComplete
      sid = some true := by
  cases dc <;>
    (unfold QueryController.handleResearchQuery
     rw [if_neg (by simp [hq]), if_neg (by simp [hs])]
     dsimp only [Option.getD]
     rw [SustainabilityService.getResearch_eq]
     by_cases hc1 : QueryController.categorizeQuery query = "sustainability" ∨
        QueryController.categorizeQuery query = "general" <;>
     by_cases hc2 : QueryController.categorizeQuery query = "leasing" ∨
        QueryController.categorizeQuery query = "general" <;>
     by_cases hc3 : QueryController.categorizeQuery query = "market" ∨
        QueryController.categorizeQuery query = "general" <;>
     simp only [hc1, hc2, hc3, if_true, if_false] <;>
     dsimp only [LeasingService.getResearch, MarketService.getResearch,
       FallbackService.getResearch, AIService.processResearch] <;>
     rw [hai] <;>
     dsimp only <;>
     exact ⟨by simp, rfl, by simp [GlobalState.setComplete]⟩)

/-- Flattening the synthesis input of a valid request gives the
adapter-derived records (as `record` items) followed by the document
entry when one was supplied. -/
lemma flattenResults_selected (query : String) (env : QueryController.ProviderEnv)
    (dc : Option DocumentContext) :
    flattenResults
      ((if QueryController.categorizeQuery query = "sustainability" ∨
           QueryController.categorizeQuery query = "general" then
         [ResultsEntry.arr (SustainabilityService.records env.arxivCall env.leedCall)] else []) ++
       (if QueryController.categorizeQuery query = "leasing" ∨
           QueryController.categorizeQuery query = "general" then
         [ResultsEntry.arr [LeasingService.cannedRecord query env.today]] else []) ++
       (if QueryController.categorizeQuery query = "market" ∨
           QueryController.categorizeQuery query = "general" then
         [ResultsEntry.arr [MarketService.cannedRecord query env.today]] else []) ++
       [ResultsEntry.arr [FallbackService.cannedRecord query env.today]] ++
       (match dc with | some d => [ResultsEntry.doc d] | none => [])) =
      (selectedRecords query env).map ResultItem.record ++
       (match dc with | some d => [ResultItem.docEntry d] | none => []) := by
  unfold selectedRecords
  cases dc <;>
    by_cases hc1 : QueryController.categorizeQuery query = "sustainability" ∨
      QueryController.categorizeQuery query = "general" <;>
    by_cases hc2 : QueryController.categorizeQuery query = "leasing" ∨
      QueryController.categorizeQuery query = "general" <;>
    by_cases hc3 : QueryController.categorizeQuery query = "market" ∨
      QueryController.categorizeQuery query = "general" <;>
    simp [hc1, hc2, hc3, flattenResults_append, flattenResults]

/-! ## Claims -/

/-- C5: a request with a missing (hence falsy) `query` or `sessionId`
fails immediately with an HTTP 400 response, creates or resets no session
entry (the session maps are returned unchanged), and invokes no
adapter. -/
theorem claim_C5 (req : ResearchRequest) (env : QueryController.ProviderEnv)
    (st : GlobalState)
    (h : jsFalsy req.query = true ∨ jsFalsy req.sessionId = true) :
    (∃ msg, (QueryController.handleResearchQuery req env st).response =
      HttpResponse.badRequest msg) ∧
    (QueryController.handleResearchQuery req env st).state = st ∧
    (QueryController.handleResearchQuery req env st).invoked = [] :=
  ⟨(handleResearchQuery_validation req env st h).1,
   (handleResearchQuery_validation req env st h).2.1,
   (handleResearchQuery_validation req env st h).2.2.1⟩

/-- C5, witness: end-to-end scenario C — a request with a query but no
`sessionId` gets a 400 response, an unchanged state and no adapter
invocation. -/
theorem claim_C5_witness :
    (∃ msg, (QueryController.handleResearchQuery
      ⟨some "office space", none, none⟩ okEnv emptyState).response =
      HttpResponse.badRequest msg) ∧
    (QueryController.handleResearchQuery
      ⟨some "office space", none, none⟩ okEnv emptyState).state = emptyState ∧
    (QueryController.handleResearchQuery
      ⟨some "office space", none, none⟩ okEnv emptyState).invoked = [] :=
  claim_C5 ⟨some "office space", none, none⟩ okEnv emptyState (Or.inr rfl)

/-- C4, counterexample to the claim as stated: a validation-rejected
request (missing query) for session `s1` leaves a pre-existing completed
session's flag at `true`, not `false`. -/
theorem claim_C4_counterexample :
    (QueryController.handleResearchQuery ⟨none, some "s1", none⟩ okEnv
      preCompletedState).response = HttpResponse.badRequest "Query is required" ∧
    (QueryController.handleResearchQuery ⟨none, some "s1", none⟩ okEnv
      preCompletedState).state.researchComplete "s1" = some true :=
  ⟨rfl, rfl⟩

/-- C4 (amended): every request that reaches the completion step — i.e.
validation passed and the model-provider call succeeded — ends with the
session's complete flag `true`; every request rejected by validation
leaves the session maps entirely unchanged, so the complete flag keeps
its prior value (false unless a previous request for that session id had
already completed) and no new session entry is created. -/
theorem claim_C4 :
    (∀ (query sid : String) (dc : Option DocumentContext)
        (env : QueryController.ProviderEnv) (st : GlobalState) (resp : String),
      jsFalsy (some query) = false → jsFalsy (some sid) = false →
      env.aiCall = Except.ok resp →
      (QueryController.handleResearchQuery ⟨some query, some sid, dc⟩ env
        st).state.researchComplete sid = some true) ∧
    (∀ (req : ResearchRequest) (env : QueryController.ProviderEnv) (st : GlobalState),
      jsFalsy req.query = true ∨ jsFalsy req.sessionId = true →
      (QueryController.handleResearchQuery req env st).state = st) :=
  ⟨fun query sid dc env st resp hq hs hai =>
    (handleResearchQuery_success query sid dc env st resp hq hs hai).2.2,
   fun req env st h => (handleResearchQuery_validation req env st h).2.1⟩

/-- C4, witness: a completed request for session `s1` ends with
`complete = true`; a validation-rejected request leaves a fresh state
unchanged. -/
theorem claim_C4_witness :
    (QueryController.handleResearchQuery ⟨some "office space", some "s1", none⟩
      okEnv emptyState).state.researchComplete "s1" = some true ∧
    (QueryController.handleResearchQuery ⟨none, some "s1", none⟩ okEnv
      emptyState).state = emptyState :=
  ⟨claim_C4.1 "office space" "s1" none okEnv emptyState "answer" (by decide) (by decide) rfl,
   claim_C4.2 ⟨none, some "s1", none⟩ okEnv emptyState (Or.inl rfl)⟩

/-- C2, counterexample to the claim as stated: for a general query with a
document context (all topical providers canned, arXiv failing), the
citation list of the response has 5 entries — one per flattened record,
including one derived from the Document Analysis entry — not 4 (the
number of adapter-derived records). -/
theorem claim_C2_counterexample :
    flattenResults (QueryController.handleResearchQuery
        ⟨some "hello", some "s1", some sampleDoc⟩ okEnv emptyState).synthInput =
      [ResultItem.record (SustainabilityService.leedRecord "1/1/2024"),
       ResultItem.record (LeasingService.cannedRecord "hello" "1/1/2024"),
       ResultItem.record (MarketService.cannedRecord "hello" "1/1/2024"),
       ResultItem.record (FallbackService.cannedRecord "hello" "1/1/2024"),
       ResultItem.docEntry sampleDoc] ∧
    (QueryController.handleResearchQuery
        ⟨some "hello", some "s1", some sampleDoc⟩ okEnv emptyState).response.citationsOf.length = 5 ∧
    ({ title := none, authors := none, source := some "Document Analysis",
       link := none, date := none } : Citation) ∈
      (QueryController.handleResearchQuery
        ⟨some "hello", some "s1", some sampleDoc⟩ okEnv emptyState).response.citationsOf := by
  refine ⟨by decide, by decide, by decide⟩

/-- C2 (amended): for every valid request that supplies a documentContext
and reaches synthesis, the record sequence handed to synthesis is the
adapter-derived records followed by the Document Analysis entry in last
position — and the citation list of the returned response **does**
contain exactly one entry derived from that entry (the projection with
source `Document Analysis` and all other fields undefined), in last
position: its length is the number of adapter-derived records plus
one. -/
theorem claim_C2 (query sid : String) (d : DocumentContext)
    (env : QueryController.ProviderEnv) (st : GlobalState) (resp : String)
    (hq : jsFalsy (some query) = false) (hs : jsFalsy (some sid) = false)
    (hai : env.aiCall = Except.ok resp) :
    flattenResults (QueryController.handleResearchQuery ⟨some query, some sid, some d⟩
        env st).synthInput =
      (selectedRecords query env).map ResultItem.record ++ [ResultItem.docEntry d] ∧
    (QueryController.handleResearchQuery ⟨some query, some sid, some d⟩
        env st).response.citationsOf =
      (selectedRecords query env).map (fun r => citeOf (ResultItem.record r)) ++
        [{ title := none, authors := none, source := some "Document Analysis",
           link := none, date := none }] ∧
    (QueryController.handleResearchQuery ⟨some query, some sid, some d⟩
        env st).response.citationsOf.length = (selectedRecords query env).length + 1 := by
  obtain ⟨h1, h2, h3⟩ := handleResearchQuery_success query sid (some d) env st resp hq hs hai
  have hflat : flattenResults (QueryController.handleResearchQuery
      ⟨some query, some sid, some d⟩ env st).synthInput =
      (selectedRecords query env).map ResultItem.record ++ [ResultItem.docEntry d] := by
    rw [h1]
    have hsel := flattenResults_selected query env (some d)
    simp only at hsel
    exact hsel
  refine ⟨hflat, ?_, ?_⟩
  · rw [h2]
    dsimp only [HttpResponse.citationsOf]
    rw [hflat]
    simp [citeOf]
  · rw [h2]
    dsimp only [HttpResponse.citationsOf]
    rw [hflat]
    simp

/-- C2, witness: for the concrete general query `hello` with the sample
document context, the last citation is the Document Analysis
projection and the citation list is one longer than the adapter-derived
record list. -/
theorem claim_C2_witness :
    (QueryController.handleResearchQuery ⟨some "hello", some "s1", some sampleDoc⟩
        okEnv emptyState).response.citationsOf.getLast? =
      some { title := none, authors := none, source := some "Document Analysis",
             link := none, date := none } ∧
    (QueryController.handleResearchQuery ⟨some "hello", some "s1", some sampleDoc⟩
        okEnv emptyState).response.citationsOf.length =
      (selectedRecords "hello" okEnv).length + 1 := by
  obtain ⟨h1, h2, h3⟩ := claim_C2 "hello" "s1" sampleDoc okEnv emptyState "answer"
    (by decide) (by decide) rfl
  exact ⟨by rw [h2]; simp, h3⟩

/-- C6: for every `researchResults` value and successful model call, the
returned citations are exactly the positional projection of the flattened
record sequence embedded in the prompt: one entry per record, in the same
order, entry `i` being the `{title, authors, source, link, date}`
projection of record `i` — independent of record content. -/
theorem claim_C6 (query : String) (researchResults : List ResultsEntry)
    (documentAnalysis : Option DocumentContext) (sessionId : String)
    (resp : String) (st : GlobalState) (aiCall : Except String String)
    (hai : aiCall = Except.ok resp) :
    ∃ r : AIResponse,
      (AIService.processResearch query researchResults documentAnalysis sessionId
        aiCall st).1 = Except.ok r ∧
      r.citations = (flattenResults researchResults).map citeOf ∧
      r.citations.length = (flattenResults researchResults).length ∧
      ∀ i : Nat, r.citations[i]? = ((flattenResults researchResults)[i]?).map citeOf := by
  subst hai
  refine ⟨_, rfl, rfl, by simp, ?_⟩
  intro i
  simp

/-- C6, witness: two flattened records produce exactly their two
projections, in order. -/
theorem claim_C6_witness :
    (AIService.processResearch "q"
        [ResultsEntry.arr [FallbackService.cannedRecord "q" "1/1/2024",
          MarketService.cannedRecord "q" "1/1/2024"]]
        none "s1" (Except.ok "narrative") emptyState).1.map (fun r => r.citations) =
      Except.ok [citeOf (ResultItem.record (FallbackService.cannedRecord "q" "1/1/2024")),
        citeOf (ResultItem.record (MarketService.cannedRecord "q" "1/1/2024"))] := by
  obtain ⟨r, h1, h2, -, -⟩ := claim_C6 "q"
    [ResultsEntry.arr [FallbackService.cannedRecord "q" "1/1/2024",
      MarketService.cannedRecord "q" "1/1/2024"]]
    none "s1" "narrative" emptyState (Except.ok "narrative") rfl
  rw [h1]
  dsimp only [Except.map]
  rw [h2]
  rfl

/-- C7, counterexample to the claim as stated: with both sustainability
providers failing, the general-category query `hello` (no document
context) hands only 3 records to synthesis, not 4. -/
theorem claim_C7_counterexample :
    QueryController.categorizeQuery "hello" = "general" ∧
    (flattenResults (QueryController.handleResearchQuery ⟨some "hello", some "s1", none⟩
        failEnv emptyState).synthInput).length = 3 := by
  refine ⟨by decide, by decide⟩

/-- C7 (amended): for every query and session id, the leasing, market and
fallback adapters each unconditionally return exactly one canned record
whose summary embeds the query string; consequently a valid
general-category request with no documentContext hands the sustainability
adapter's records plus exactly these three records to synthesis — four
records in total precisely when sustainability contributes one, as it
does whenever its arXiv search yields nothing (its LEED placeholder then
supplies exactly one record). -/
theorem claim_C7 :
    (∀ (query sessionId today : String) (st : GlobalState),
      (LeasingService.getResearch query sessionId today st).1 =
        [LeasingService.cannedRecord query today] ∧
      (MarketService.getResearch query sessionId today st).1 =
        [MarketService.cannedRecord query today] ∧
      (FallbackService.getResearch query sessionId today st).1 =
        [FallbackService.cannedRecord query today] ∧
      (LeasingService.cannedRecord query today).summary =
        "Sample leasing data for the query: " ++ query ∧
      (MarketService.cannedRecord query today).summary =
        "Sample market data for the query: " ++ query ∧
      (FallbackService.cannedRecord query today).summary =
        "Sample fallback data for the query: " ++ query) ∧
    (∀ (query sid : String) (env : QueryController.ProviderEnv) (st : GlobalState)
        (resp : String),
      jsFalsy (some query) = false → jsFalsy (some sid) = false →
      env.aiCall = Except.ok resp →
      QueryController.categorizeQuery query = "general" →
      (flattenResults (QueryController.handleResearchQuery ⟨some query, some sid, none⟩
          env st).synthInput).length =
        (SustainabilityService.records env.arxivCall env.leedCall).length + 3) ∧
    (∀ e today : String,
      SustainabilityService.records (Except.error e)
        (Except.ok [SustainabilityService.leedRecord today]) =
        [SustainabilityService.leedRecord today]) := by
  refine ⟨fun query sessionId today st => ⟨rfl, rfl, rfl, rfl, rfl, rfl⟩, ?_, fun e today => rfl⟩
  intro query sid env st resp hq hs hai hcat
  obtain ⟨h1, h2, h3⟩ := handleResearchQuery_success query sid none env st resp hq hs hai
  rw [h1]
  have hsel := flattenResults_selected query env none
  simp only at hsel
  rw [hsel]
  simp [selectedRecords, hcat]

/-- C7, witness: the leasing adapter's output for a concrete query, and a
concrete offline general-category request handing exactly four records to
synthesis. -/
theorem claim_C7_witness :
    (LeasingService.getResearch "office" "s1" "1/1/2024" emptyState).1 =
      [LeasingService.cannedRecord "office" "1/1/2024"] ∧
    (flattenResults (QueryController.handleResearchQuery ⟨some "hello", some "s1", none⟩
        okEnv emptyState).synthInput).length = 4 :=
  ⟨(claim_C7.1 "office" "s1" "1/1/2024" emptyState).1,
   (claim_C7.2.1 "hello" "s1" okEnv emptyState "answer" (by decide) (by decide) rfl
      (by decide)).trans (by decide)⟩

/-- The top of the three keyword-match scores is attained by at least two
categories. -/
abbrev tiedTop (s l m : Nat) : Prop :=
  (s = l ∧ m ≤ s) ∨ (s = m ∧ l ≤ s) ∨ (l = m ∧ s ≤ l)

/-- C1, counterexample to the claim as stated: for the query
`"lease price"` the leasing and market scores of the pipeline categorizer
are tied at the top score 1 (the sustainability score is 0), yet
`QueryController.categorizeQuery` returns `"market"`, not `"general"`. -/
theorem claim_C1_counterexample :
    QueryController.countMatches (jsToLower "lease price") QueryController.sustainabilityKeywords = 0 ∧
    QueryController.countMatches (jsToLower "lease price") QueryController.leasingKeywords = 1 ∧
    QueryController.countMatches (jsToLower "lease price") QueryController.marketKeywords = 1 ∧
    QueryController.categorizeQuery "lease price" ≠ "general" := by
  decide

/-- C1 (amended). For the categorization used by the research pipeline
(`QueryController.categorizeQuery`): a query whose top keyword-match score
is tied among two or more categories returns `general` only when the
market score is zero — in particular whenever all three scores are zero;
when the market score is positive, every such tie returns `market`
instead. -/
theorem claim_C1 (q : String) (s l m : Nat)
    (hs : s = QueryController.countMatches (jsToLower q) QueryController.sustainabilityKeywords)
    (hl : l = QueryController.countMatches (jsToLower q) QueryController.leasingKeywords)
    (hm : m = QueryController.countMatches (jsToLower q) QueryController.marketKeywords) :
    (tiedTop s l m → m = 0 → QueryController.categorizeQuery q = "general") ∧
    (tiedTop s l m → 0 < m → QueryController.categorizeQuery q = "market") ∧
    (s = 0 → l = 0 → m = 0 → QueryController.categorizeQuery q = "general") := by
  subst hs hl hm
  have hc : QueryController.categorizeQuery q = QueryController.pickCategory
    (QueryController.countMatches (jsToLower q) QueryController.sustainabilityKeywords)
    (QueryController.countMatches (jsToLower q) QueryController.leasingKeywords)
    (QueryController.countMatches (jsToLower q) QueryController.marketKeywords) := rfl
  refine ⟨?_, ?_, ?_⟩
  · intro ht hm
    rw [hc]; unfold QueryController.pickCategory
    split_ifs <;> first | rfl | (exfalso; omega)
  · intro ht hm
    rw [hc]; unfold QueryController.pickCategory
    split_ifs <;> first | rfl | (exfalso; omega)
  · intro h1 h2 h3
    rw [hc]; unfold QueryController.pickCategory
    split_ifs <;> first | rfl | (exfalso; omega)

/-- C1, witness: `"lease price"` has a positive-market top tie and is
categorized `market`; the keyword-free query `"hello"` has all scores zero
and is categorized `general`. -/
theorem claim_C1_witness :
    QueryController.categorizeQuery "lease price" = "market" ∧
    QueryController.categorizeQuery "hello" = "general" :=
  ⟨(claim_C1 "lease price" 0 1 1 (by decide) (by decide) (by decide)).2.1
     (by decide) (by decide),
   (claim_C1 "hello" 0 0 0 (by decide) (by decide) (by decide)).2.2 rfl rfl rfl⟩

/-- C8: a query matching at least one keyword of exactly one category's
set and none of the other two is categorized as that category, and a query
matching no keyword of any set is categorized `general` — both for the
pipeline categorizer (`QueryController.categorizeQuery`, whose label for
the market category is `market`) and for the standalone
`QueryCategorizer.categorize` (whose label for it is `market_trends`). -/
theorem claim_C8 (q : String) (s l m s2 l2 m2 : Nat)
    (hs : s = QueryController.countMatches (jsToLower q) QueryController.sustainabilityKeywords)
    (hl : l = QueryController.countMatches (jsToLower q) QueryController.leasingKeywords)
    (hm : m = QueryController.countMatches (jsToLower q) QueryController.marketKeywords)
    (hs2 : s2 = QueryCategorizer.countKeywordMatches (jsToLower q)
      QueryCategorizer.sustainabilityKeywords)
    (hl2 : l2 = QueryCategorizer.countKeywordMatches (jsToLower q)
      QueryCategorizer.leasingKeywords)
    (hm2 : m2 = QueryCategorizer.countKeywordMatches (jsToLower q)
      QueryCategorizer.marketTrendsKeywords) :
    (0 < s → l = 0 → m = 0 → QueryController.categorizeQuery q = "sustainability") ∧
    (s = 0 → 0 < l → m = 0 → QueryController.categorizeQuery q = "leasing") ∧
    (s = 0 → l = 0 → 0 < m → QueryController.categorizeQuery q = "market") ∧
    (s = 0 → l = 0 → m = 0 → QueryController.categorizeQuery q = "general") ∧
    (0 < s2 → l2 = 0 → m2 = 0 → QueryCategorizer.categorize q = "sustainability") ∧
    (s2 = 0 → 0 < l2 → m2 = 0 → QueryCategorizer.categorize q = "leasing") ∧
    (s2 = 0 → l2 = 0 → 0 < m2 → QueryCategorizer.categorize q = "market_trends") ∧
    (s2 = 0 → l2 = 0 → m2 = 0 → QueryCategorizer.categorize q = "general") := by
  subst hs hl hm hs2 hl2 hm2
  have hc : QueryController.categorizeQuery q = QueryController.pickCategory
    (QueryController.countMatches (jsToLower q) QueryController.sustainabilityKeywords)
    (QueryController.countMatches (jsToLower q) QueryController.leasingKeywords)
    (QueryController.countMatches (jsToLower q) QueryController.marketKeywords) := rfl
  have hc2 : QueryCategorizer.categorize q = QueryCategorizer.pickScoredCategory
    (QueryCategorizer.countKeywordMatches (jsToLower q) QueryCategorizer.sustainabilityKeywords)
    (QueryCategorizer.countKeywordMatches (jsToLower q) QueryCategorizer.leasingKeywords)
    (QueryCategorizer.countKeywordMatches (jsToLower q) QueryCategorizer.marketTrendsKeywords)
    := rfl
  refine ⟨?_, ?_, ?_, ?_, ?_, ?_, ?_, ?_⟩ <;> intro h1 h2 h3 <;>
    simp only [hc, hc2, QueryController.pickCategory, QueryCategorizer.pickScoredCategory] <;>
    split_ifs <;> first | rfl | (exfalso; omega)

/-- C8, witness: one query per case — `green` (sustainability only),
`tenant` (leasing only), `forecast` (market only), `hello` (no keyword) —
for both categorizers. -/
theorem claim_C8_witness :
    QueryController.categorizeQuery "green" = "sustainability" ∧
    QueryController.categorizeQuery "tenant" = "leasing" ∧
    QueryController.categorizeQuery "forecast" = "market" ∧
    QueryController.categorizeQuery "hello" = "general" ∧
    QueryCategorizer.categorize "green" = "sustainability" ∧
    QueryCategorizer.categorize "tenant" = "leasing" ∧
    QueryCategorizer.categorize "forecast" = "market_trends" ∧
    QueryCategorizer.categorize "hello" = "general" :=
  ⟨(claim_C8 "green" 1 0 0 1 0 0 (by decide) (by decide) (by decide) (by decide)
      (by decide) (by decide)).1 (by decide) rfl rfl,
   (claim_C8 "tenant" 0 1 0 0 1 0 (by decide) (by decide) (by decide) (by decide)
      (by decide) (by decide)).2.1 rfl (by decide) rfl,
   (claim_C8 "forecast" 0 0 1 0 0 1 (by decide) (by decide) (by decide) (by decide)
      (by decide) (by decide)).2.2.1 rfl rfl (by decide),
   (claim_C8 "hello" 0 0 0 0 0 0 (by decide) (by decide) (by decide) (by decide)
      (by decide) (by decide)).2.2.2.1 rfl rfl rfl,
   (claim_C8 "green" 1 0 0 1 0 0 (by decide) (by decide) (by decide) (by decide)
      (by decide) (by decide)).2.2.2.2.1 (by decide) rfl rfl,
   (claim_C8 "tenant" 0 1 0 0 1 0 (by decide) (by decide) (by decide) (by decide)
      (by decide) (by decide)).2.2.2.2.2.1 rfl (by decide) rfl,
   (claim_C8 "forecast" 0 0 1 0 0 1 (by decide) (by decide) (by decide) (by decide)
      (by decide) (by decide)).2.2.2.2.2.2.1 rfl rfl (by decide),
   (claim_C8 "hello" 0 0 0 0 0 0 (by decide) (by decide) (by decide) (by decide)
      (by decide) (by decide)).2.2.2.2.2.2.2 rfl rfl rfl⟩

/-- C9: for every feed source and every query, the news-feed search
contributes at most 2 items from that feed (a failed fetch contributes
none); every contributed item carries a strictly positive relevance score
equal to `scoreRelevance` of its own title and description; and the
contribution is exactly a top-2 selection of the feed's positively scored
items: sorted descending by score and dominating every positively scored
item left out. -/
theorem claim_C9 (query e : String)
    (feeds : List (Except String (List RSSFeedService.FeedItem)))
    (items : List RSSFeedService.FeedItem) :
    let queryTerms := jsSplitOnSpace (jsToLower query)
    let top := RSSFeedService.topScoredItems queryTerms items
    let positives := (items.map (fun item =>
      (item, RSSFeedService.scoreRelevance queryTerms item.title item.description))).filter
      (fun p => decide (p.2 > 0))
    top.length ≤ 2 ∧
    (∀ p ∈ top,
      p.2 = RSSFeedService.scoreRelevance queryTerms p.1.title p.1.description ∧ 0 < p.2) ∧
    top.Pairwise (fun a b => b.2 ≤ a.2) ∧
    (∃ rest, (top ++ rest).Perm positives ∧
      (top ++ rest).Pairwise (fun a b => b.2 ≤ a.2) ∧
      ∀ a ∈ top, ∀ b ∈ rest, b.2 ≤ a.2) ∧
    RSSFeedService.searchNews query (feeds ++ [Except.ok items]) =
      RSSFeedService.searchNews query feeds ++ top ∧
    RSSFeedService.searchNews query (feeds ++ [Except.error e]) =
      RSSFeedService.searchNews query feeds := by
  intro queryTerms top positives
  haveI instTot : IsTotal (RSSFeedService.FeedItem × Nat) (fun a b => b.2 ≤ a.2) :=
    ⟨fun a b => Nat.le_total b.2 a.2⟩
  haveI instTrans : IsTrans (RSSFeedService.FeedItem × Nat) (fun a b => b.2 ≤ a.2) :=
    ⟨fun _ _ _ hab hbc => le_trans hbc hab⟩
  have hsorted : (positives.insertionSort (fun a b => b.2 ≤ a.2)).Pairwise
      (fun a b => b.2 ≤ a.2) := List.sorted_insertionSort _ _
  have hperm : (positives.insertionSort (fun a b => b.2 ≤ a.2)).Perm positives :=
    List.perm_insertionSort _ _
  have htop : top = (positives.insertionSort (fun a b => b.2 ≤ a.2)).take 2 := rfl
  refine ⟨?_, ?_, ?_, ?_, ?_, ?_⟩
  · rw [htop]
    exact List.length_take_le 2 _
  · intro p hp
    have hmem : p ∈ positives := by
      have h1 : p ∈ positives.insertionSort (fun a b => b.2 ≤ a.2) :=
        List.take_subset 2 _ (htop ▸ hp)
      exact hperm.mem_iff.mp h1
    have hfil := List.mem_filter.mp hmem
    obtain ⟨item, -, rfl⟩ := List.mem_map.mp hfil.1
    exact ⟨rfl, by simpa using hfil.2⟩
  · rw [htop]
    exact hsorted.sublist (List.take_sublist 2 _)
  · have hpw : (top ++ (positives.insertionSort (fun a b => b.2 ≤ a.2)).drop 2).Pairwise
        (fun a b => b.2 ≤ a.2) := by
      rw [htop, List.take_append_drop]
      exact hsorted
    refine ⟨(positives.insertionSort (fun a b => b.2 ≤ a.2)).drop 2, ?_, hpw, ?_⟩
    · rw [htop, List.take_append_drop]
      exact hperm
    · exact (List.pairwise_append.mp hpw).2.2
  · unfold RSSFeedService.searchNews
    rw [List.foldl_append]
    rfl
  · unfold RSSFeedService.searchNews
    rw [List.foldl_append]
    rfl

/-- C9, witness: a two-item feed on the query `vacancy data` — the
positively scored item (score 2) is contributed, the unrelated item is
not; appending a failed feed and then this feed to the fold contributes
exactly the top selection. -/
theorem claim_C9_witness :
    (RSSFeedService.topScoredItems (jsSplitOnSpace (jsToLower "vacancy data"))
      [{ title := "Office vacancy rises", description := "vacancy data update" },
       { title := "Unrelated item", description := "nothing here" }]).length ≤ 2 ∧
    0 < ((({ title := "Office vacancy rises", description := "vacancy data update" } :
        RSSFeedService.FeedItem), 2) : RSSFeedService.FeedItem × Nat).2 ∧
    RSSFeedService.searchNews "vacancy data"
        [Except.error "down",
         Except.ok [{ title := "Office vacancy rises", description := "vacancy data update" },
           { title := "Unrelated item", description := "nothing here" }]] =
      RSSFeedService.searchNews "vacancy data" [Except.error "down"] ++
        RSSFeedService.topScoredItems (jsSplitOnSpace (jsToLower "vacancy data"))
          [{ title := "Office vacancy rises", description := "vacancy data update" },
           { title := "Unrelated item", description := "nothing here" }] := by
  have h := claim_C9 "vacancy data" "down" [Except.error "down"]
    [{ title := "Office vacancy rises", description := "vacancy data update" },
     { title := "Unrelated item", description := "nothing here" }]
  exact ⟨h.1,
    (h.2.1 ({ title := "Office vacancy rises", description := "vacancy data update" }, 2)
      (by decide)).2,
    h.2.2.2.2.1⟩

/-- C10: the economic-indicator trend label is `stable` for fewer than two
observations, a non-numeric endpoint, or a zero oldest value; otherwise it
is determined solely by the percent change between the most recent and the
oldest fetched observation via `trendLabel`, which takes exactly one of
the five values and is monotone in the percent change. -/
theorem claim_C10 :
    (∀ observations : List FREDService.FredObs, observations.length < 2 →
      FREDService.calculateTrend observations = "stable") ∧
    (∀ (observations : List FREDService.FredObs) (latestObs previousObs : FREDService.FredObs),
      1 < observations.length →
      observations.head? = some latestObs →
      observations.getLast? = some previousObs →
      ((latestObs.value = none ∨ previousObs.value = none) →
        FREDService.calculateTrend observations = "stable") ∧
      (previousObs.value = some 0 →
        FREDService.calculateTrend observations = "stable") ∧
      (∀ latest previous : ℚ, latestObs.value = some latest →
        previousObs.value = some previous → previous ≠ 0 →
        FREDService.calculateTrend observations =
          FREDService.trendLabel ((latest - previous) / previous * 100))) ∧
    (∀ pc : ℚ,
      FREDService.trendLabel pc = "significantly increased" ∨
      FREDService.trendLabel pc = "increased" ∨
      FREDService.trendLabel pc = "stable" ∨
      FREDService.trendLabel pc = "decreased" ∨
      FREDService.trendLabel pc = "significantly decreased") ∧
    (∀ pc pc' : ℚ, pc ≤ pc' →
      FREDService.labelRank (FREDService.trendLabel pc) ≤
        FREDService.labelRank (FREDService.trendLabel pc')) := by
  refine ⟨?_, ?_, ?_, ?_⟩
  · intro observations h
    unfold FREDService.calculateTrend
    rw [if_neg (by omega)]
  · intro observations latestObs previousObs hlen hh hl
    unfold FREDService.calculateTrend
    rw [if_pos (by omega), hh, hl]
    dsimp only
    refine ⟨?_, ?_, ?_⟩
    · rintro (hv | hv)
      · rw [hv]
      · rw [hv]
        cases latestObs.value <;> rfl
    · intro hv
      rw [hv]
      cases latestObs.value <;> simp
    · intro latest previous h1 h2 hne
      rw [h1, h2]
      dsimp only
      rw [if_pos hne]
  · intro pc
    unfold FREDService.trendLabel
    split_ifs <;> simp
  · intro pc pc' h
    simp only [FREDService.trendLabel]
    split_ifs <;> first | decide | (exfalso; linarith)

/-- C3: no adapter raises past its `getResearch` boundary.  The
sustainability adapter resolves with `.ok` for every combination of
provider outcomes, and when its arXiv and LEED calls both fail it returns
the empty sequence; the leasing, market and fallback adapters have no live
provider call and always resolve with exactly one synthetic record. -/
theorem claim_C3 (arxivCall leedCall : Except String (List ResearchRecord))
    (e1 e2 query sessionId today : String) (st : GlobalState) :
    (∃ rs st', SustainabilityService.getResearch arxivCall leedCall sessionId st =
      (Except.ok rs, st')) ∧
    (SustainabilityService.getResearch (Except.error e1) (Except.error e2) sessionId st).1 =
      Except.ok [] ∧
    (LeasingService.getResearch query sessionId today st).1 =
      [LeasingService.cannedRecord query today] ∧
    (MarketService.getResearch query sessionId today st).1 =
      [MarketService.cannedRecord query today] ∧
    (FallbackService.getResearch query sessionId today st).1 =
      [FallbackService.cannedRecord query today] :=
  ⟨SustainabilityService.getResearch_ok arxivCall leedCall sessionId st, rfl, rfl, rfl, rfl⟩

/-- C10, witness: an empty series is `stable`; a two-point series from 10
up to 11 gets the label of its percent change (+10%, i.e. `increased`);
monotonicity applied at 1 ≤ 5. -/
theorem claim_C10_witness :
    FREDService.calculateTrend [] = "stable" ∧
    FREDService.calculateTrend
      [{ date := "2024-02-01", value := some 11 }, { date := "2024-01-01", value := some 10 }] =
      FREDService.trendLabel ((11 - 10) / 10 * 100) ∧
    FREDService.labelRank (FREDService.trendLabel 1) ≤
      FREDService.labelRank (FREDService.trendLabel 5) :=
  ⟨claim_C10.1 [] (by decide),
   (claim_C10.2.1
      [{ date := "2024-02-01", value := some 11 }, { date := "2024-01-01", value := some 10 }]
      { date := "2024-02-01", value := some 11 } { date := "2024-01-01", value := some 10 }
      (by decide) rfl rfl).2.2 11 10 rfl rfl (by norm_num),
   claim_C10.2.2.2 1 5 (by norm_num)⟩
